import Mathlib

/-
  Verification of the user-identity reconciliation component of AWClient.

  Source of truth:
  - src/aw-server/aw-webui/src/views/User.vue is the presentation component
    (the caller); its template and script are embedded below directly.
  - The IdentityStore (the module imported as stores/user, exposing
    ensureLoaded, register, update, and the reactive fields uuid, username,
    created, isExistOnServer, _loaded) is not part of the available sources;
    its operations are modelled from the specification and marked as such.

  Remote calls are embedded by passing the outcome of the call (FetchResult
  or MutResult) as an explicit argument; the operations return the new state,
  the list of network requests actually dispatched, and an optional error
  message, so that theorems can speak about dispatched traffic and surfaced
  errors.
-/

namespace AWClient

/-- State of the IdentityStore singleton. Field names follow the fields the
component reads on the store object: uuid, username, created, isExistOnServer,
_loaded. The inFlight flag is the in-flight mutation guard of spec section 5. -/
structure UserState where
  uuid : String
  username : String
  created : String
  isExistOnServer : Bool
  _loaded : Bool
  inFlight : Bool
  deriving Repr, DecidableEq

/-- Outcome of the remote identity fetch issued by ensureLoaded: a record was
found, the server answered not-found, or the transport or server failed. -/
inductive FetchResult where
  | found (uuid username created : String)
  | notFound
  | failure (msg : String)
  deriving Repr, DecidableEq

/-- Outcome of a remote create or update call: the authoritative record on
success, or an error message (validation, conflict, transport). -/
inductive MutResult where
  | ok (uuid username created : String)
  | err (msg : String)
  deriving Repr, DecidableEq

/-- Observable actions of the component: network requests dispatched by the
store and the full page reload performed by the component. createReq carries
the generated id and the display name submitted to the create endpoint;
updateReq carries the existing id and the new display name. -/
inductive Action where
  | createReq (uuid username : String)
  | updateReq (uuid username : String)
  | reload
  deriving Repr, DecidableEq

/-- Modelled from the spec: IdentityStore.ensureLoaded, which is missing from
the available sources. If _loaded is already true it is a no-op. Otherwise,
on a found record it populates uuid, username, created and sets
isExistOnServer and _loaded; on not-found it sets isExistOnServer false and
_loaded true; on transport failure it leaves the state unchanged (loaded stays
false) and surfaces the error message. -/
def ensureLoaded (s : UserState) (r : FetchResult) : UserState × Option String :=
  if s._loaded then (s, none)
  else
    match r with
    | FetchResult.found u n c =>
        ({ s with uuid := u, username := n, created := c,
                  isExistOnServer := true, _loaded := true }, none)
    | FetchResult.notFound =>
        ({ s with isExistOnServer := false, _loaded := true }, none)
    | FetchResult.failure m => (s, some m)

/-- Iterated calls of ensureLoaded, one per fetch outcome in the list. -/
def ensureLoadedMany (s : UserState) : List FetchResult → UserState
  | [] => s
  | r :: rs => ensureLoadedMany (ensureLoaded s r).1 rs

/-- Modelled from the spec: IdentityStore.register, which is missing from the
available sources. It rejects re-entrant calls while a mutation is in flight
(spec section 5); otherwise it dispatches a create request carrying the
generated id and the submitted display name, and on success replaces the local
state with the authoritative response (remote created is canonical), setting
isExistOnServer; on failure it leaves the local state unchanged and surfaces
the error message. -/
def register (s : UserState) (input newId : String) (resp : MutResult) :
    UserState × List Action × Option String :=
  if s.inFlight then (s, [], some "another register or update is in flight")
  else
    match resp with
    | MutResult.ok u n c =>
        ({ uuid := u, username := n, created := c, isExistOnServer := true,
           _loaded := s._loaded, inFlight := false },
         [Action.createReq newId input], none)
    | MutResult.err m =>
        ({ s with inFlight := false }, [Action.createReq newId input], some m)

/-- Modelled from the spec: IdentityStore.update, which is missing from the
available sources. It rejects re-entrant calls while a mutation is in flight
(spec section 5); otherwise it dispatches an update request keyed by the
existing immutable id, and on success replaces only the local display name by
the authoritative response; on failure it leaves the local state unchanged and
surfaces the error message. -/
def update (s : UserState) (input : String) (resp : MutResult) :
    UserState × List Action × Option String :=
  if s.inFlight then (s, [], some "another register or update is in flight")
  else
    match resp with
    | MutResult.ok _ n _ =>
        ({ s with username := n, inFlight := false },
         [Action.updateReq s.uuid input], none)
    | MutResult.err m =>
        ({ s with inFlight := false }, [Action.updateReq s.uuid input], some m)

/-- Modelled from the spec: the dispatch phase of a mutation, as seen by the
in-flight guard of spec section 5. The guard flag is checked before dispatch;
if a mutation is outstanding nothing is dispatched, otherwise the flag is set
and the single request goes out. Resolution (register or update applying the
response and clearing the flag) happens later, at the asynchronous boundary. -/
def mutationDispatch (s : UserState) (req : Action) : UserState × List Action :=
  if s.inFlight then (s, [])
  else ({ s with inFlight := true }, [req])

/-- Local data of the User.vue component, from its data() initializer: an
error string and the locally edited username copy. The store is shared state
and is threaded separately. Note there is no cached copy of isExistOnServer. -/
structure ComponentData where
  error : String
  username : String
  deriving Repr, DecidableEq

/-- The data() initializer of User.vue: error and username start empty. -/
def initialData : ComponentData := { error := "", username := "" }

/-- The init method of User.vue: await ensureLoaded, then copy the username
of the store into the local component field. -/
def init (c : ComponentData) (s : UserState) (r : FetchResult) :
    ComponentData × UserState :=
  let s1 := (ensureLoaded s r).1
  ({ c with username := s1.username }, s1)

/-- An edit of the username input bound by v-model to the local username
field: it rewrites only the local component copy; the store is untouched and
no network request is dispatched. -/
def editUsername (c : ComponentData) (s : UserState) (v : String) :
    ComponentData × UserState × List Action :=
  ({ c with username := v }, s, [])

/-- The submit method of User.vue: if the store flag isExistOnServer is false
at the moment of submit, call register with the local username, else call
update with the local username; then reload the page unconditionally. The
returned error of the store call is discarded, exactly as the code awaits the
call without capturing its result and never assigns the error field. -/
def submit (c : ComponentData) (s : UserState) (newId : String) (resp : MutResult) :
    ComponentData × UserState × List Action :=
  if !s.isExistOnServer then
    let (s1, reqs, _e) := register s c.username newId resp
    (c, s1, reqs ++ [Action.reload])
  else
    let (s1, reqs, _e) := update s c.username resp
    (c, s1, reqs ++ [Action.reload])

/-- The dispatch phase of submit: the routing branch of User.vue picks the
request from the current store state, and the store guard of spec section 5
decides whether it is dispatched. Used to reason about a second submit firing
before the first resolves. -/
def submitDispatch (c : ComponentData) (s : UserState) (newId : String) :
    UserState × List Action :=
  mutationDispatch s
    (if !s.isExistOnServer then Action.createReq newId c.username
     else Action.updateReq s.uuid c.username)

/-- Visibility of the update form, from the v-if of User.vue line 9:
userStore.isExistOnServer and userStore._loaded. -/
def updateFormVisible (s : UserState) : Bool := s.isExistOnServer && s._loaded

/-- Visibility of the register form, from the v-if of User.vue line 25:
not userStore.isExistOnServer and userStore._loaded. -/
def registerFormVisible (s : UserState) : Bool := !s.isExistOnServer && s._loaded

/-- An input field of a form in the User.vue template: its label and whether
the input is rendered disabled. -/
structure FormField where
  label : String
  disabled : Bool
  deriving Repr, DecidableEq

/-- The inputs of the update form in the User.vue template: Username is
editable, UUID and Created carry the disabled attribute. -/
def updateFormFields : List FormField :=
  [{ label := "Username", disabled := false },
   { label := "UUID", disabled := true },
   { label := "Created", disabled := true }]

/-- The inputs of the register form in the User.vue template: Username is
editable, UUID carries the disabled attribute. -/
def registerFormFields : List FormField :=
  [{ label := "Username", disabled := false },
   { label := "UUID", disabled := true }]

/-- Whether an action list contains a dispatch to the create endpoint. -/
def routedToRegister (acts : List Action) : Bool :=
  acts.any fun a =>
    match a with
    | Action.createReq _ _ => true
    | _ => false

/-- The five identity fields of spec section 3, as a tuple: id, displayName,
createdAt, existsRemotely, loaded. The inFlight guard flag is bookkeeping of
spec section 5, not part of the identity record. -/
def identityFields (s : UserState) : String × String × String × Bool × Bool :=
  (s.uuid, s.username, s.created, s.isExistOnServer, s._loaded)

/-- A loaded store state with no remote record, as after ensureLoaded answered
not-found. -/
def sampleAbsent : UserState :=
  { uuid := "u-1", username := "alice", created := "t0",
    isExistOnServer := false, _loaded := true, inFlight := false }

/-- A fresh, unloaded store state. -/
def sampleUnloaded : UserState :=
  { uuid := "", username := "", created := "",
    isExistOnServer := false, _loaded := false, inFlight := false }

/-- Helper: a second call of ensureLoaded with the same fetch outcome leaves
the state reached by the first call unchanged. -/
theorem ensureLoaded_stable (s : UserState) (r : FetchResult) :
    (ensureLoaded (ensureLoaded s r).1 r).1 = (ensureLoaded s r).1 := by
  cases hl : s._loaded <;> cases r <;> simp [ensureLoaded, hl]

/-- Helper: n+1 calls of ensureLoaded with the same fetch outcome reach the
same state as a single call. -/
theorem ensureLoadedMany_replicate (s : UserState) (r : FetchResult) (n : Nat) :
    ensureLoadedMany s (List.replicate (n + 1) r) = (ensureLoaded s r).1 := by
  induction n generalizing s with
  | zero => simp [ensureLoadedMany, List.replicate]
  | succ k ih =>
      have h1 : ensureLoadedMany s (List.replicate (k + 2) r)
          = ensureLoadedMany (ensureLoaded s r).1 (List.replicate (k + 1) r) := by
        simp [List.replicate, ensureLoadedMany]
      rw [h1, ih, ensureLoaded_stable]

/-- C1: submit routes to register exactly when the store flag isExistOnServer
is false at the moment of submit; the flag is read from the current store
state s, not from the component created at form-open time from an arbitrary
earlier store state s0. -/
theorem submit_routes_by_current_flag (s0 s : UserState) (r : FetchResult)
    (newId : String) (resp : MutResult) (h : s.inFlight = false) :
    routedToRegister (submit (init initialData s0 r).1 s newId resp).2.2 = true
      ↔ s.isExistOnServer = false := by
  cases hx : s.isExistOnServer <;> cases resp <;>
    simp [submit, register, update, routedToRegister, h, hx]

/-- C1 witness: concrete instance of the routing theorem. -/
theorem submit_routes_by_current_flag_witness :
    sampleAbsent.inFlight = false ∧
      (routedToRegister (submit (init initialData sampleUnloaded FetchResult.notFound).1
          sampleAbsent "u-9" (MutResult.ok "u-9" "bob" "t1")).2.2 = true
        ↔ sampleAbsent.isExistOnServer = false) :=
  ⟨rfl, submit_routes_by_current_flag sampleUnloaded sampleAbsent
    FetchResult.notFound "u-9" (MutResult.ok "u-9" "bob" "t1") rfl⟩

/-- C2: when a second submit dispatch fires before the first resolves, exactly
one network request is issued across the two dispatches: the in-flight guard
rejects the re-entrant dispatch. -/
theorem overlapping_submits_issue_one_request (c1 c2 : ComponentData)
    (s : UserState) (id1 id2 : String) (h : s.inFlight = false) :
    ((submitDispatch c1 s id1).2
      ++ (submitDispatch c2 (submitDispatch c1 s id1).1 id2).2).length = 1 := by
  simp [submitDispatch, mutationDispatch, h]

/-- C2 witness: concrete instance of the overlapping-submit theorem. -/
theorem overlapping_submits_issue_one_request_witness :
    sampleAbsent.inFlight = false ∧
      ((submitDispatch initialData sampleAbsent "u-9").2
        ++ (submitDispatch initialData (submitDispatch initialData sampleAbsent "u-9").1
              "u-10").2).length = 1 :=
  ⟨rfl, overlapping_submits_issue_one_request initialData initialData
    sampleAbsent "u-9" "u-10" rfl⟩

/-- C3: evaluation of the component code at a failing register call. The
store surfaces the message boom, but submit leaves the component error field
empty (no code path assigns it) and still ends with the unconditional page
reload, so the message is never displayed. -/
theorem submit_failure_message_dropped :
    (submit { error := "", username := "alice" } sampleAbsent "u-9"
        (MutResult.err "boom")).1.error = ""
      ∧ (register sampleAbsent "alice" "u-9" (MutResult.err "boom")).2.2 = some "boom"
      ∧ (submit { error := "", username := "alice" } sampleAbsent "u-9"
          (MutResult.err "boom")).2.2.getLast? = some Action.reload :=
  ⟨rfl, rfl, rfl⟩

/-- C4: on every failure path of ensureLoaded, register and update, the five
identity fields (id, displayName, createdAt, existsRemotely, loaded) are
unchanged. -/
theorem failure_paths_leave_identity_unchanged (s : UserState)
    (input newId m : String) :
    identityFields (ensureLoaded s (FetchResult.failure m)).1 = identityFields s
      ∧ identityFields (register s input newId (MutResult.err m)).1 = identityFields s
      ∧ identityFields (update s input (MutResult.err m)).1 = identityFields s := by
  refine ⟨?_, ?_, ?_⟩
  · cases hl : s._loaded <;> simp [ensureLoaded, identityFields, hl]
  · cases hf : s.inFlight <;> simp [register, identityFields, hf]
  · cases hf : s.inFlight <;> simp [update, identityFields, hf]

/-- C5: in every state, loaded or fresh, n+1 calls of ensureLoaded with the
same fetch outcome reach exactly the state of a single call; and when _loaded
is already true, ensureLoaded is a no-op (it returns the state unchanged with
no error). -/
theorem ensureLoaded_idempotent (s : UserState) (r : FetchResult) (n : Nat) :
    ensureLoadedMany s (List.replicate (n + 1) r) = (ensureLoaded s r).1
      ∧ (s._loaded = true → ensureLoaded s r = (s, none)) :=
  ⟨ensureLoadedMany_replicate s r n, fun h => by simp [ensureLoaded, h]⟩

/-- C5 witness: concrete instances of the idempotence theorem, one on a fresh
unloaded state and one on an already loaded state. -/
theorem ensureLoaded_idempotent_witness :
    ensureLoadedMany sampleUnloaded (List.replicate 3 FetchResult.notFound)
        = (ensureLoaded sampleUnloaded FetchResult.notFound).1
      ∧ sampleAbsent._loaded = true
      ∧ ensureLoaded sampleAbsent FetchResult.notFound = (sampleAbsent, none) :=
  ⟨(ensureLoaded_idempotent sampleUnloaded FetchResult.notFound 2).1, rfl,
    (ensureLoaded_idempotent sampleAbsent FetchResult.notFound 0).2 rfl⟩

/-- C6: update never changes uuid or created, for every response; and in the
template the only editable input of either form is Username: UUID and Created
are disabled. -/
theorem update_preserves_id_and_created (s : UserState) (input : String)
    (resp : MutResult) :
    ((update s input resp).1).uuid = s.uuid
      ∧ ((update s input resp).1).created = s.created
      ∧ (updateFormFields.filter (fun f => !f.disabled)).map FormField.label
          = ["Username"]
      ∧ (registerFormFields.filter (fun f => !f.disabled)).map FormField.label
          = ["Username"] := by
  refine ⟨?_, ?_, rfl, rfl⟩ <;>
    cases hf : s.inFlight <;> cases resp <;> simp [update, hf]

/-- C7: after a successful register or update, submit ends with the full page
reload, so all dependent application state is re-derived. -/
theorem submit_success_reloads (c : ComponentData) (s : UserState)
    (newId u n cr : String) :
    ((submit c s newId (MutResult.ok u n cr)).2.2).getLast? = some Action.reload := by
  cases hx : s.isExistOnServer <;> cases hf : s.inFlight <;>
    simp [submit, register, update, hx, hf]

/-- C8: while _loaded is false, neither the update form nor the register form
is rendered, so no submit button exists and no mutation can be triggered. -/
theorem forms_hidden_until_loaded (s : UserState) (h : s._loaded = false) :
    updateFormVisible s = false ∧ registerFormVisible s = false := by
  simp [updateFormVisible, registerFormVisible, h]

/-- C8 witness: concrete instance of the form-gating theorem. -/
theorem forms_hidden_until_loaded_witness :
    sampleUnloaded._loaded = false ∧
      (updateFormVisible sampleUnloaded = false
        ∧ registerFormVisible sampleUnloaded = false) :=
  ⟨rfl, forms_hidden_until_loaded sampleUnloaded rfl⟩

/-- C9: a register call dispatches exactly one create request carrying both
the generated id and the submitted display name, and on success the local
state captures the authoritative response: remote uuid, username and created
are taken verbatim and existence is recorded. -/
theorem register_submits_id_and_name (s : UserState) (input newId u n cr : String)
    (h : s.inFlight = false) :
    (register s input newId (MutResult.ok u n cr)).2.1 = [Action.createReq newId input]
      ∧ ((register s input newId (MutResult.ok u n cr)).1).created = cr
      ∧ ((register s input newId (MutResult.ok u n cr)).1).uuid = u
      ∧ ((register s input newId (MutResult.ok u n cr)).1).username = n
      ∧ ((register s input newId (MutResult.ok u n cr)).1).isExistOnServer = true := by
  simp [register, h]

/-- C9 witness: concrete instance of the register theorem. -/
theorem register_submits_id_and_name_witness :
    sampleAbsent.inFlight = false ∧
      ((register sampleAbsent "alice" "u-9" (MutResult.ok "u-9" "alice" "t1")).2.1
          = [Action.createReq "u-9" "alice"]
        ∧ ((register sampleAbsent "alice" "u-9" (MutResult.ok "u-9" "alice" "t1")).1).created = "t1"
        ∧ ((register sampleAbsent "alice" "u-9" (MutResult.ok "u-9" "alice" "t1")).1).uuid = "u-9"
        ∧ ((register sampleAbsent "alice" "u-9" (MutResult.ok "u-9" "alice" "t1")).1).username = "alice"
        ∧ ((register sampleAbsent "alice" "u-9" (MutResult.ok "u-9" "alice" "t1")).1).isExistOnServer = true) :=
  ⟨rfl, register_submits_id_and_name sampleAbsent "alice" "u-9" "u-9" "alice" "t1" rfl⟩

/-- C10: init copies the username of the store into the local component field,
and a subsequent edit of the username input rewrites only the local copy: the
component error field, the whole store state and the network trace (empty) are
untouched until submit. -/
theorem edits_local_until_submit (c : ComponentData) (s : UserState)
    (r : FetchResult) (v : String) :
    ((init c s r).1).username = ((init c s r).2).username
      ∧ (editUsername c s v).1.username = v
      ∧ (editUsername c s v).1.error = c.error
      ∧ (editUsername c s v).2.1 = s
      ∧ (editUsername c s v).2.2 = ([] : List Action) :=
  ⟨rfl, rfl, rfl, rfl, rfl⟩

end AWClient
